import Mathlib

/-!
Verification of the geospatial/routing engine of the `Maps` repository
(`src/app.py`, `src/dapp.py`) against its natural-language specification.

The Python engine is shallowly embedded:
* Python floats are modelled as exact rationals (`ℚ`); Python's `round`
  (round-half-to-even) is modelled exactly by `pyRound`.
* the delivery-time estimator `StoreLocator.estimate_delivery_time`
  (src/app.py:61-78, src/dapp.py:39-56) becomes `estimate_delivery_time`,
  with the wall-clock timestamp reduced to its hour-of-day component, the
  only part the code reads;
* the nearby-store search `StoreLocator.find_nearby_stores`
  (src/app.py:80-104, src/dapp.py:58-82) becomes `find_nearby_stores`.
  The store catalog (a CSV file absent from `src/`) is a parameter, and the
  numeric value of the geodesic distance — produced by the external `geopy`
  library — is abstracted as a function parameter `dist`; the filtering,
  rounding and stable sorting logic is taken verbatim from the source.
  Python's `sorted` is a stable sort, modelled by `List.insertionSort`
  (which Mathlib documents as stable);
* the road-network routing of the `/api/stores/route` endpoints
  (src/app.py:305-523, src/dapp.py:177-303) becomes `app_get_store_route`
  / `dapp_get_store_route` over an explicit edge-list multigraph.
  `networkx.shortest_path` with a weight key (Dijkstra over the
  non-negative weights `travel_time` and `length`) is modelled as a
  minimum-cost simple path, `none` when no path exists; the
  `nx.NetworkXNoPath` exception becomes an `Except.error`;
* the single-slot graph cache (`self.network_graph`, rebuilt only when it
  is `None`: src/app.py:314-315, src/dapp.py:188-189) becomes
  `get_route_graph`, with the center used by `initialize_graph` carried
  alongside the graph as ghost state so that claims about the build center
  can be stated;
* the distance calculator `calculate_distance` (src/app.py:57-59,
  src/dapp.py:35-37) delegates entirely to `geopy.distance.geodesic`,
  which is outside `src/`; it is modelled from the spec (§4.1) as a
  great-circle distance on a spherical Earth, together with the library's
  documented input handling (latitudes outside [-90, 90] are rejected,
  longitudes are normalized into [-180, 180)).
-/

namespace Maps

/-- Python's built-in `round` to an integer: round half to even
(banker's rounding), on an exact rational. -/
def pyRound (q : ℚ) : ℤ :=
  if q - ⌊q⌋ < 1/2 then ⌊q⌋
  else if 1/2 < q - ⌊q⌋ then ⌊q⌋ + 1
  else if ⌊q⌋ % 2 = 0 then ⌊q⌋ else ⌊q⌋ + 1

/-- Python's `round(x, 2)`: round to two decimal places, half to even. -/
def round2 (q : ℚ) : ℚ := (pyRound (q * 100) : ℚ) / 100

/-- The traffic multiplier selection of `estimate_delivery_time`
(src/app.py:70-76): `1.5` when `hour in [8, 9, 10, 17, 18, 19]`, `0.8`
when `hour in [23, 0, 1, 2, 3, 4]`, else `1.0`. -/
def trafficMultiplier (hour : ℕ) : ℚ :=
  if hour ∈ [8, 9, 10, 17, 18, 19] then 3/2
  else if hour ∈ [23, 0, 1, 2, 3, 4] then 4/5
  else 1

/-- `StoreLocator.estimate_delivery_time` (src/app.py:61-78,
src/dapp.py:39-56): `base_minutes = 5 + distance * 2`, the traffic
multiplier chosen by the hour of the current time, and Python `round`.
The timestamp argument is reduced to its `hour` field, the only
component the code reads. -/
def estimate_delivery_time (distance : ℚ) (hour : ℕ) : ℤ :=
  pyRound ((5 + distance * 2) * trafficMultiplier hour)

/-- The delivery-time multiplier table as the specification words it
(§4.2): 1.5 on peak hours {8,9,10,17,18,19}, 0.8 on off-peak hours
{23,0,1,2,3,4}, 1.0 otherwise.  Used to compare the code against the
spec's formula `round((5 + 2*d) * m)`. -/
def specMultiplier (hour : ℕ) : ℚ :=
  if hour = 8 ∨ hour = 9 ∨ hour = 10 ∨ hour = 17 ∨ hour = 18 ∨ hour = 19 then 3/2
  else if hour = 23 ∨ hour = 0 ∨ hour = 1 ∨ hour = 2 ∨ hour = 3 ∨ hour = 4 then 4/5
  else 1

/-- A row of the store catalog (`stores_df`), with the fields the engine
reads: identity/contact strings and the geographic location. -/
structure Store where
  store_name : String
  address : String
  contact : String
  product_categories : String
  latitude : ℚ
  longitude : ℚ
deriving DecidableEq

/-- One element of the list built by `find_nearby_stores`
(src/app.py:91-102): the store's fields, the distance rounded to two
decimals, the delivery-time estimate, and the raw location. -/
structure NearbyStore where
  store_name : String
  address : String
  contact : String
  distance : ℚ
  estimated_delivery_time : ℤ
  product_categories : String
  location : ℚ × ℚ
deriving DecidableEq

/-- The sort key of `sorted(nearby_stores, key=lambda x: x['distance'])`:
comparison on the (rounded) `distance` field. -/
def byDistance (x y : NearbyStore) : Prop := x.distance ≤ y.distance

instance : DecidableRel byDistance := fun x y =>
  inferInstanceAs (Decidable (x.distance ≤ y.distance))

instance : IsTotal NearbyStore byDistance := ⟨fun x y => le_total x.distance y.distance⟩

instance : IsTrans NearbyStore byDistance := ⟨fun _ _ _ h1 h2 => le_trans h1 h2⟩

/-- The result record appended for a store at (unrounded) distance `d`
(src/app.py:90-102). -/
def mkNearby (s : Store) (d : ℚ) (hour : ℕ) : NearbyStore :=
  { store_name := s.store_name
    address := s.address
    contact := s.contact
    distance := round2 d
    estimated_delivery_time := estimate_delivery_time d hour
    product_categories := s.product_categories
    location := (s.latitude, s.longitude) }

/-- The `nearby_stores` list built by the loop of `find_nearby_stores`
(src/app.py:82-102) in catalog order: the stores whose distance from
`(lat, lon)` is `≤ radius` (the unrounded distance is compared), each
turned into its result record. -/
def nearbyCandidates (dist : ℚ × ℚ → ℚ × ℚ → ℚ) (stores : List Store)
    (lat lon radius : ℚ) (hour : ℕ) : List NearbyStore :=
  (stores.filter fun s =>
      decide (dist (lat, lon) (s.latitude, s.longitude) ≤ radius)).map
    fun s => mkNearby s (dist (lat, lon) (s.latitude, s.longitude)) hour

/-- `StoreLocator.find_nearby_stores` (src/app.py:80-104,
src/dapp.py:58-82): the filtered records, stable-sorted by the (rounded)
`distance` field — `sorted(nearby_stores, key=lambda x: x['distance'])`,
Python's `sorted` being stable.  `dist` abstracts the numeric value
returned by `calculate_distance` (the external geopy geodesic); `hour`
abstracts `datetime.now().hour` read by the estimator. -/
def find_nearby_stores (dist : ℚ × ℚ → ℚ × ℚ → ℚ) (stores : List Store)
    (lat lon radius : ℚ) (hour : ℕ) : List NearbyStore :=
  List.insertionSort byDistance (nearbyCandidates dist stores lat lon radius hour)

/-- One edge of the osmnx road-network multigraph: endpoints, the
`length` attribute (meters) and the `travel_time` attribute (seconds)
added by `ox.add_edge_speeds` / `ox.add_edge_travel_times`
(src/app.py:49-51). -/
structure RoadEdge where
  src : ℕ
  dst : ℕ
  length : ℚ
  travel_time : ℚ
deriving DecidableEq

/-- The directed road-network multigraph built by
`ox.graph_from_point` (src/app.py:49): node ids with an explicit edge
list (parallel edges allowed). -/
structure RoadGraph where
  nodes : List ℕ
  edges : List RoadEdge
deriving DecidableEq

/-- Edge-weight selector `weight='travel_time'` of `nx.shortest_path`. -/
def weightTime (e : RoadEdge) : ℚ := e.travel_time

/-- Edge-weight selector `weight='length'` of `nx.shortest_path`. -/
def weightLength (e : RoadEdge) : ℚ := e.length

/-- Whether the multigraph has at least one edge from `u` to `v`. -/
def hasEdge (g : RoadGraph) (u v : ℕ) : Bool :=
  g.edges.any fun e => e.src == u && e.dst == v

/-- Every consecutive pair of the node sequence is joined by an edge. -/
def validSteps (g : RoadGraph) : List ℕ → Bool
  | u :: v :: rest => hasEdge g u v && validSteps g (v :: rest)
  | _ => true

/-- `p` is a walk in `g` from `s` to `t`: nonempty, starts at `s`, ends
at `t`, every step an edge. -/
def ValidPath (g : RoadGraph) (s t : ℕ) (p : List ℕ) : Prop :=
  p.head? = some s ∧ p.getLast? = some t ∧ validSteps g p = true

/-- Cost of one step `u → v`: networkx's Dijkstra on a multigraph uses
the minimum of the weight attribute over the parallel edges `u → v`
(0 when there is no such edge; only applied to valid steps). -/
def edgeCost (g : RoadGraph) (w : RoadEdge → ℚ) (u v : ℕ) : ℚ :=
  match (g.edges.filter fun e => e.src == u && e.dst == v).map w with
  | [] => 0
  | c :: cs => cs.foldl min c

/-- Total weight of a node sequence: sum of the per-step costs. -/
def pathCost (g : RoadGraph) (w : RoadEdge → ℚ) : List ℕ → ℚ
  | u :: v :: rest => edgeCost g w u v + pathCost g w (v :: rest)
  | _ => 0

/-- Depth-first enumeration of the simple paths from `u` to `t` that
avoid `visited`, with a fuel bound on the path length. -/
def pathsAux (g : RoadGraph) : ℕ → ℕ → ℕ → List ℕ → List (List ℕ)
  | 0, _, _, _ => []
  | fuel + 1, u, t, visited =>
    if u = t then [[u]]
    else
      ((g.edges.filter fun e => e.src == u && !((u :: visited).contains e.dst)).map
        fun e => (pathsAux g fuel e.dst t (u :: visited)).map fun p => u :: p).flatten

/-- All simple paths from `s` to `t` in `g` (a simple path visits at
most `g.nodes.length + 1` nodes, so the fuel suffices). -/
def simplePaths (g : RoadGraph) (s t : ℕ) : List (List ℕ) :=
  pathsAux g (g.nodes.length + 1) s t []

/-- First element of the list minimizing `f` (`none` on `[]`). -/
def argminBy {α : Type} (f : α → ℚ) : List α → Option α
  | [] => none
  | x :: xs =>
    match argminBy f xs with
    | none => some x
    | some y => if f x ≤ f y then some x else some y

/-- Model of `nx.shortest_path(G, s, t, weight=w)` (Dijkstra over the
non-negative `length` / `travel_time` weights): a minimum-weight simple
path from `s` to `t`, `none` exactly when the enumeration is empty (the
`nx.NetworkXNoPath` case).  The tie-break among equal-weight optima is a
modelling choice; no claim depends on it. -/
def shortest_path (g : RoadGraph) (w : RoadEdge → ℚ) (s t : ℕ) : Option (List ℕ) :=
  argminBy (pathCost g w) (simplePaths g s t)

/-- Error outcome of the route endpoints: the `nx.NetworkXNoPath`
handler returns the 404 `'No route found'` response
(src/app.py:513-517, src/dapp.py:293-297). -/
inductive RouteError where
  | noPathFound
deriving DecidableEq

/-- The path computation of `/api/stores/route` in src/app.py:323-330:
a single `nx.shortest_path` call with `weight='travel_time'`; its node
sequence is the only path the endpoint materializes (animation frames).
No length-weighted path is computed in this file. -/
def app_get_store_route (g : RoadGraph) (start_node end_node : ℕ) :
    Except RouteError (List ℕ) :=
  match shortest_path g weightTime start_node end_node with
  | some p => Except.ok p
  | none => Except.error RouteError.noPathFound

/-- The path computation of `/api/stores/route` in src/dapp.py:199-211:
`nx.shortest_path` twice over the same graph, once with
`weight='travel_time'` and once with `weight='length'`; both node
sequences are rendered.  An unreachable destination raises
`nx.NetworkXNoPath` from the first call, giving the error response. -/
def dapp_get_store_route (g : RoadGraph) (start_node end_node : ℕ) :
    Except RouteError (List ℕ × List ℕ) :=
  match shortest_path g weightTime start_node end_node,
        shortest_path g weightLength start_node end_node with
  | some path_time, some path_length => Except.ok (path_time, path_length)
  | _, _ => Except.error RouteError.noPathFound

/-- The graph-cache step of both route endpoints (src/app.py:314-315,
src/dapp.py:188-189):

  if store_locator.network_graph is None:
      store_locator.initialize_graph((user_lat, user_lon))

The build center passed to `initialize_graph` is carried alongside the
graph as ghost state (the code keeps only the graph), so that properties
about which center the served graph was built around can be stated.
Returns the (center, graph) pair the request is served with and the new
cache contents. -/
def get_route_graph (build : ℚ × ℚ → RoadGraph)
    (cache : Option ((ℚ × ℚ) × RoadGraph)) (userPoint : ℚ × ℚ) :
    ((ℚ × ℚ) × RoadGraph) × Option ((ℚ × ℚ) × RoadGraph) :=
  match cache with
  | none => ((userPoint, build userPoint), some (userPoint, build userPoint))
  | some cg => (cg, some cg)

/-- A latitude/longitude pair in degrees; the GeoPoint invariant of the
data model (§3): −90 ≤ lat ≤ 90, −180 ≤ lon ≤ 180. -/
def ValidGeoPoint (p : ℚ × ℚ) : Prop :=
  -90 ≤ p.1 ∧ p.1 ≤ 90 ∧ -180 ≤ p.2 ∧ p.2 ≤ 180

instance : DecidablePred ValidGeoPoint := fun p =>
  inferInstanceAs (Decidable (-90 ≤ p.1 ∧ p.1 ≤ 90 ∧ -180 ≤ p.2 ∧ p.2 ≤ 180))

/-- Longitude normalization into [-180, 180) performed by the geopy
`Point` constructor on any input longitude. -/
def normalizeLon (q : ℚ) : ℚ := q - 360 * ⌊(q + 180) / 360⌋

/-- Degrees to radians. -/
noncomputable def degToRad (q : ℚ) : ℝ := (q : ℝ) * Real.pi / 180

/-- Unit vector on the sphere for a (lat, lon) pair in degrees. -/
noncomputable def unitVec (p : ℚ × ℚ) : ℝ × ℝ × ℝ :=
  (Real.cos (degToRad p.1) * Real.cos (degToRad p.2),
   Real.cos (degToRad p.1) * Real.sin (degToRad p.2),
   Real.sin (degToRad p.1))

/-- Euclidean dot product on ℝ³. -/
def dot3 (u v : ℝ × ℝ × ℝ) : ℝ := u.1 * v.1 + u.2.1 * v.2.1 + u.2.2 * v.2.2

/-- Great-circle distance in kilometers between two (lat, lon) pairs on
a sphere of radius 6371 km: the central angle `arccos` of the dot
product of the corresponding unit vectors. -/
noncomputable def greatCircleKm (p q : ℚ × ℚ) : ℝ :=
  6371 * Real.arccos (dot3 (unitVec p) (unitVec q))

/-- Modelled from the spec: `geopy.distance.geodesic(a, b).kilometers`,
the external library call that `calculate_distance` delegates to, is not
part of `src/`.  Per §4.1 it is a great-circle (geodesic) distance on a
spherical or ellipsoidal Earth model; it is modelled here on the sphere.
The library's documented input handling is kept: each point is converted
to a `geopy.Point`, which raises `ValueError` for a latitude outside
[-90, 90] and silently normalizes any longitude into [-180, 180); the
exception is modelled as an `Except.error` carrying only a generic
message, since the repository has no structured error kinds. -/
noncomputable def geodesic_kilometers (p q : ℚ × ℚ) : Except String ℝ :=
  if -90 ≤ p.1 ∧ p.1 ≤ 90 ∧ -90 ≤ q.1 ∧ q.1 ≤ 90 then
    Except.ok (greatCircleKm (p.1, normalizeLon p.2) (q.1, normalizeLon q.2))
  else Except.error "ValueError"

/-- `StoreLocator.calculate_distance` (src/app.py:57-59,
src/dapp.py:35-37): `return geodesic((lat1, lon1), (lat2, lon2)).kilometers`.
The source adds no validation of its own around the library call. -/
noncomputable def calculate_distance (p q : ℚ × ℚ) : Except String ℝ :=
  geodesic_kilometers p q

/-- Whether an `Except` computation succeeded. -/
def isOkE {ε α : Type} : Except ε α → Bool
  | Except.ok _ => true
  | Except.error _ => false

/-! ### Concrete fixtures used by witnesses and counterexamples -/

/-- A concrete one-row catalog used by witnesses. -/
def demoStore : Store :=
  { store_name := "Store A"
    address := "1 Demo Road"
    contact := "555-0100"
    product_categories := "Groceries"
    latitude := 1
    longitude := 1 }

/-- A concrete road network in which the fastest and the shortest route
differ: `0 → 1 → 3` is fast but long, `0 → 2 → 3` is slow but short. -/
def routeDemoGraph : RoadGraph :=
  { nodes := [0, 1, 2, 3]
    edges := [⟨0, 1, 10, 1⟩, ⟨1, 3, 10, 1⟩, ⟨0, 2, 1, 10⟩, ⟨2, 3, 1, 10⟩] }

/-- A concrete road network with no edge at all: node 1 is unreachable
from node 0. -/
def noPathGraph : RoadGraph := { nodes := [0, 1], edges := [] }

/-! ### Rounding lemmas -/

theorem floor_le_pyRound (q : ℚ) : ⌊q⌋ ≤ pyRound q := by
  unfold pyRound
  split_ifs <;> omega

theorem pyRound_le_floor_add_one (q : ℚ) : pyRound q ≤ ⌊q⌋ + 1 := by
  unfold pyRound
  split_ifs <;> omega

theorem pyRound_cast_le (q : ℚ) : (pyRound q : ℚ) ≤ q + 1/2 := by
  have h1 : (⌊q⌋ : ℚ) ≤ q := Int.floor_le q
  unfold pyRound
  split_ifs with ha hb hc <;> push_cast <;> linarith

theorem le_pyRound_cast (q : ℚ) : q - 1/2 ≤ (pyRound q : ℚ) := by
  have h1 : q < ⌊q⌋ + 1 := Int.lt_floor_add_one q
  unfold pyRound
  split_ifs with ha hb hc <;> push_cast <;> linarith

theorem pyRound_mono {a b : ℚ} (h : a ≤ b) : pyRound a ≤ pyRound b := by
  have hf : ⌊a⌋ ≤ ⌊b⌋ := Int.floor_mono h
  rcases lt_or_eq_of_le hf with hlt | heq
  · have h1 := pyRound_le_floor_add_one a
    have h2 := floor_le_pyRound b
    omega
  · have hr : a - (⌊a⌋ : ℚ) ≤ b - (⌊b⌋ : ℚ) := by
      rw [← heq]
      linarith
    unfold pyRound
    rw [heq] at hr ⊢
    split_ifs <;> first | omega | linarith

theorem round2_mono {a b : ℚ} (h : a ≤ b) : round2 a ≤ round2 b := by
  unfold round2
  have := pyRound_mono (mul_le_mul_of_nonneg_right h (by norm_num : (0:ℚ) ≤ 100))
  have hc : ((pyRound (a * 100) : ℚ)) ≤ ((pyRound (b * 100) : ℚ)) := by
    exact_mod_cast this
  linarith

theorem round2_le (q : ℚ) : round2 q ≤ q + 1/200 := by
  unfold round2
  have := pyRound_cast_le (q * 100)
  linarith

theorem trafficMultiplier_pos (h : ℕ) : 0 < trafficMultiplier h := by
  unfold trafficMultiplier
  split_ifs <;> norm_num

/-! ### Claim theorems: delivery-time estimator -/

/-- C3 (confirmed).  For every non-negative distance `d` (km) and every
hour of the 24-hour clock, the delivery-time estimate equals
`round((5 + 2*d) * m)` with `m` the peak / off-peak / normal multiplier
of the spec's table (1.5 on {8,9,10,17,18,19}, 0.8 on {23,0,1,2,3,4},
1.0 otherwise, `round` being Python's round-half-to-even), and in
particular for `d = 10` the estimate is 38 at hour 9, 20 at hour 2 and
25 at hour 14. -/
theorem c3_delivery_time_estimate :
    (∀ d : ℚ, 0 ≤ d → ∀ h : ℕ, h < 24 →
        estimate_delivery_time d h = pyRound ((5 + 2 * d) * specMultiplier h)) ∧
      estimate_delivery_time 10 9 = 38 ∧
      estimate_delivery_time 10 2 = 20 ∧
      estimate_delivery_time 10 14 = 25 := by
  refine ⟨fun d _ h _ => ?_,
    by norm_num [estimate_delivery_time, trafficMultiplier, pyRound],
    by norm_num [estimate_delivery_time, trafficMultiplier, pyRound],
    by norm_num [estimate_delivery_time, trafficMultiplier, pyRound]⟩
  have hm : trafficMultiplier h = specMultiplier h := by
    simp [trafficMultiplier, specMultiplier, List.mem_cons]
  unfold estimate_delivery_time
  rw [hm]
  exact congrArg pyRound (by ring)

/-- Witness for C3 at `d = 10`, `h = 9`. -/
theorem c3_delivery_time_estimate_witness :
    (0 : ℚ) ≤ 10 ∧ 9 < 24 ∧
      estimate_delivery_time 10 9 = pyRound ((5 + 2 * 10) * specMultiplier 9) :=
  ⟨by norm_num, by norm_num, c3_delivery_time_estimate.1 10 (by norm_num) 9 (by norm_num)⟩

/-- C10 (confirmed).  For a fixed hour the delivery-time estimate is
monotone non-decreasing in the distance: the base `5 + 2*d` is
increasing, the multiplier depends only on the hour and is positive, and
Python's rounding is order-preserving. -/
theorem c10_estimate_monotone (h : ℕ) (d1 d2 : ℚ) (hd : d1 ≤ d2) :
    estimate_delivery_time d1 h ≤ estimate_delivery_time d2 h := by
  unfold estimate_delivery_time
  exact pyRound_mono
    (mul_le_mul_of_nonneg_right (by linarith) (trafficMultiplier_pos h).le)

/-- Witness for C10 at `h = 12`, `d1 = 3`, `d2 = 7`. -/
theorem c10_estimate_monotone_witness :
    (3 : ℚ) ≤ 7 ∧ estimate_delivery_time 3 12 ≤ estimate_delivery_time 7 12 :=
  ⟨by norm_num, c10_estimate_monotone 12 3 7 (by norm_num)⟩

/-! ### Claim theorems: nearby-store search, negative radius -/

/-- C9 (confirmed).  For every catalog, origin and negative radius,
`find_nearby_stores` returns the empty list rather than failing: the
geodesic distance is non-negative, so no store passes the inclusive
`distance <= radius` filter. -/
theorem c9_negative_radius (dist : ℚ × ℚ → ℚ × ℚ → ℚ) (stores : List Store)
    (lat lon radius : ℚ) (hour : ℕ)
    (hpos : ∀ p q, 0 ≤ dist p q) (hr : radius < 0) :
    find_nearby_stores dist stores lat lon radius hour = [] := by
  unfold find_nearby_stores nearbyCandidates
  have hfil : (stores.filter fun s =>
      decide (dist (lat, lon) (s.latitude, s.longitude) ≤ radius)) = [] := by
    rw [List.filter_eq_nil_iff]
    intro s _
    simp only [decide_eq_true_eq]
    intro hle
    have := hpos (lat, lon) (s.latitude, s.longitude)
    linarith
  rw [hfil]
  rfl

/-- Witness for C9: a constant distance 1 on a one-store catalog and
radius −1. -/
theorem c9_negative_radius_witness :
    (∀ p q : ℚ × ℚ, 0 ≤ (fun _ _ => (1 : ℚ)) p q) ∧ (-1 : ℚ) < 0 ∧
      find_nearby_stores (fun _ _ => 1) [demoStore] 0 0 (-1) 12 = [] :=
  ⟨fun _ _ => by norm_num, by norm_num,
    c9_negative_radius (fun _ _ => 1) [demoStore] 0 0 (-1) 12
      (fun _ _ => by norm_num) (by norm_num)⟩

/-! ### Claim theorems: graph cache -/

/-- C1 (code bug).  The graph cache is not keyed by the build center:
with a cached graph built around center (19, 72), a route request for
the different locality (28, 77) is served with that same stale graph and
the cache is left unchanged — the code rebuilds only when the cache is
empty (src/app.py:314-315, src/dapp.py:188-189), exactly the latent bug
the spec flags in §9 and requires fixing in §4.4. -/
theorem c1_cache_ignores_center :
    get_route_graph (fun _ => { nodes := [1], edges := [] })
        (some (((19 : ℚ), (72 : ℚ)), { nodes := [7], edges := [] }))
        ((28 : ℚ), (77 : ℚ)) =
      ((((19 : ℚ), (72 : ℚ)), { nodes := [7], edges := [] }),
        some (((19 : ℚ), (72 : ℚ)), { nodes := [7], edges := [] })) ∧
      (((19 : ℚ), (72 : ℚ)) : ℚ × ℚ) ≠ ((28 : ℚ), (77 : ℚ)) :=
  ⟨rfl, by decide⟩

/-! ### Stable-sort lemmas for the nearby-store search -/

/-- Inserting into the stable sort: the elements whose `distance` equals
`v` keep their order, with the inserted element (which came first in the
original list) in front exactly when it belongs to the class — the
insertion walks past only strictly smaller keys. -/
theorem filter_orderedInsert_byDistance (v : ℚ) (a : NearbyStore) :
    ∀ l : List NearbyStore,
      (List.orderedInsert byDistance a l).filter (fun x => x.distance == v) =
        if a.distance == v then a :: l.filter (fun x => x.distance == v)
        else l.filter (fun x => x.distance == v) := by
  intro l
  induction l with
  | nil =>
    cases hav : a.distance == v <;> simp [List.orderedInsert, List.filter, hav]
  | cons b bs ih =>
    unfold List.orderedInsert
    by_cases hab : byDistance a b
    · rw [if_pos hab]
      cases hav : a.distance == v <;> simp [List.filter_cons, hav]
    · rw [if_neg hab]
      have hlt : b.distance < a.distance := not_le.mp hab
      cases hav : a.distance == v
      · simp [List.filter_cons, ih, hav]
      · have hv : a.distance = v := by simpa using hav
        have hbv : (b.distance == v) = false := by
          rw [beq_eq_false_iff_ne, ← hv]
          exact ne_of_lt hlt
        simp [List.filter_cons, ih, hav, hbv]

/-- Stability of the sort used by `find_nearby_stores`: within each
equal-`distance` class the output preserves the input order (Python's
`sorted` is stable). -/
theorem filter_insertionSort_byDistance (v : ℚ) :
    ∀ l : List NearbyStore,
      (List.insertionSort byDistance l).filter (fun x => x.distance == v) =
        l.filter (fun x => x.distance == v) := by
  intro l
  induction l with
  | nil => rfl
  | cons a as ih =>
    rw [List.insertionSort]
    rw [filter_orderedInsert_byDistance, ih]
    cases hav : a.distance == v <;> simp [List.filter_cons, hav]

/-! ### Shortest-path infrastructure lemmas -/

theorem argminBy_eq_none {α : Type} (f : α → ℚ) :
    ∀ l : List α, argminBy f l = none → l = [] := by
  intro l h
  cases l with
  | nil => rfl
  | cons a as =>
    unfold argminBy at h
    cases hrec : argminBy f as with
    | none => rw [hrec] at h; exact absurd h (by simp)
    | some y => rw [hrec] at h; dsimp only at h; split_ifs at h

theorem argminBy_mem {α : Type} (f : α → ℚ) :
    ∀ (l : List α) (x : α), argminBy f l = some x → x ∈ l := by
  intro l
  induction l with
  | nil => intro x h; exact absurd h (by simp [argminBy])
  | cons a as ih =>
    intro x h
    unfold argminBy at h
    cases hrec : argminBy f as with
    | none =>
      rw [hrec] at h
      obtain rfl : a = x := by simpa using h
      exact List.mem_cons_self a as
    | some y =>
      rw [hrec] at h
      dsimp only at h
      split_ifs at h
      · obtain rfl : a = x := by simpa using h
        exact List.mem_cons_self a as
      · obtain rfl : y = x := by simpa using h
        exact List.mem_cons_of_mem a (ih y hrec)

theorem argminBy_le {α : Type} (f : α → ℚ) :
    ∀ (l : List α) (x : α), argminBy f l = some x → ∀ y ∈ l, f x ≤ f y := by
  intro l
  induction l with
  | nil => intro x h; exact absurd h (by simp [argminBy])
  | cons a as ih =>
    intro x h y hy
    unfold argminBy at h
    cases hrec : argminBy f as with
    | none =>
      obtain rfl : as = [] := argminBy_eq_none f as hrec
      rw [hrec] at h
      obtain rfl : a = x := by simpa using h
      obtain rfl : y = a := by simpa using hy
      exact le_refl _
    | some z =>
      rw [hrec] at h
      dsimp only at h
      rcases List.mem_cons.mp hy with rfl | hmem
      · split_ifs at h with hle
        · obtain rfl : y = x := by simpa using h
          exact le_refl _
        · obtain rfl : z = x := by simpa using h
          exact le_of_not_le hle
      · split_ifs at h with hle
        · obtain rfl : a = x := by simpa using h
          exact le_trans hle (ih z hrec y hmem)
        · obtain rfl : z = x := by simpa using h
          exact ih z hrec y hmem

theorem argminBy_isSome {α : Type} (f : α → ℚ) (l : List α) (h : l ≠ []) :
    ∃ x, argminBy f l = some x := by
  cases hl : argminBy f l with
  | none => exact absurd (argminBy_eq_none f l hl) h
  | some x => exact ⟨x, rfl⟩

/-- Every enumerated path really is a walk from `u` to `t` along edges
of the graph. -/
theorem pathsAux_sound (g : RoadGraph) :
    ∀ (fuel u t : ℕ) (visited : List ℕ) (p : List ℕ),
      p ∈ pathsAux g fuel u t visited →
      p.head? = some u ∧ p.getLast? = some t ∧ validSteps g p = true := by
  intro fuel
  induction fuel with
  | zero => intro u t visited p h; exact absurd h (by simp [pathsAux])
  | succ n ih =>
    intro u t visited p h
    unfold pathsAux at h
    by_cases hut : u = t
    · rw [if_pos hut] at h
      obtain rfl : p = [u] := by simpa using h
      exact ⟨rfl, by simp [hut], rfl⟩
    · rw [if_neg hut] at h
      rw [List.mem_flatten] at h
      obtain ⟨L, hL, hpL⟩ := h
      rw [List.mem_map] at hL
      obtain ⟨e, he, rfl⟩ := hL
      rw [List.mem_map] at hpL
      obtain ⟨q, hq, rfl⟩ := hpL
      obtain ⟨hqh, hql, hqs⟩ := ih e.dst t (u :: visited) q hq
      rw [List.mem_filter] at he
      obtain ⟨hee, hcond⟩ := he
      cases q with
      | nil => exact absurd hqh (by simp)
      | cons b bs =>
        obtain rfl : b = e.dst := by simpa using hqh
        have hsrc : e.src = u := by
          simp only [Bool.and_eq_true, beq_iff_eq] at hcond
          exact hcond.1
        have hedge : hasEdge g u e.dst = true := by
          unfold hasEdge
          rw [List.any_eq_true]
          exact ⟨e, hee, by simp [hsrc]⟩
        refine ⟨rfl, ?_, ?_⟩
        · rw [List.getLast?_cons_cons]
          exact hql
        · show (hasEdge g u e.dst && validSteps g (e.dst :: bs)) = true
          rw [hedge, hqs]
          rfl

theorem simplePaths_sound (g : RoadGraph) (s t : ℕ) (p : List ℕ)
    (h : p ∈ simplePaths g s t) : ValidPath g s t p :=
  pathsAux_sound g (g.nodes.length + 1) s t [] p h

/-- Inversion: a successful `dapp` route means both shortest-path calls
succeeded with the returned paths. -/
theorem dapp_route_ok {g : RoadGraph} {s t : ℕ} {pt pl : List ℕ}
    (h : dapp_get_store_route g s t = Except.ok (pt, pl)) :
    shortest_path g weightTime s t = some pt ∧
      shortest_path g weightLength s t = some pl := by
  unfold dapp_get_store_route at h
  cases h1 : shortest_path g weightTime s t with
  | none =>
    rw [h1] at h
    exact absurd h (by simp)
  | some a =>
    cases h2 : shortest_path g weightLength s t with
    | none =>
      rw [h1, h2] at h
      exact absurd h (by simp)
    | some b =>
      rw [h1, h2] at h
      dsimp only at h
      obtain ⟨ha, hb⟩ : a = pt ∧ b = pl := by simpa using h
      subst ha
      subst hb
      exact ⟨rfl, rfl⟩

/-- On `routeDemoGraph` the travel-time-optimal route is `0 → 1 → 3`. -/
theorem demo_time_path :
    shortest_path routeDemoGraph weightTime 0 3 = some [0, 1, 3] := by
  have h : simplePaths routeDemoGraph 0 3 = [[0, 1, 3], [0, 2, 3]] := by decide
  unfold shortest_path
  rw [h]
  norm_num [argminBy, pathCost, edgeCost, routeDemoGraph, weightTime]

/-- On `routeDemoGraph` the length-optimal route is `0 → 2 → 3`. -/
theorem demo_length_path :
    shortest_path routeDemoGraph weightLength 0 3 = some [0, 2, 3] := by
  have h : simplePaths routeDemoGraph 0 3 = [[0, 1, 3], [0, 2, 3]] := by decide
  unfold shortest_path
  rw [h]
  norm_num [argminBy, pathCost, edgeCost, routeDemoGraph, weightLength]

theorem demo_dapp :
    dapp_get_store_route routeDemoGraph 0 3 = Except.ok ([0, 1, 3], [0, 2, 3]) := by
  unfold dapp_get_store_route
  rw [demo_time_path, demo_length_path]

theorem demo_app :
    app_get_store_route routeDemoGraph 0 3 = Except.ok [0, 1, 3] := by
  unfold app_get_store_route
  rw [demo_time_path]

/-! ### Claim theorems: route planner -/

/-- C2 (corrected: only src/dapp.py runs the computation twice).  When
the destination is reachable (some simple path exists), the dapp route
operation runs the shortest-path computation with both edge weights over
the same graph and returns both resulting paths — each a genuine walk
from origin to destination, optimal among the enumerated simple paths
for its own weight — while the app route operation returns only the
travel-time path. -/
theorem c2_both_paths (g : RoadGraph) (s t : ℕ) (hne : simplePaths g s t ≠ []) :
    ∃ pt pl,
      dapp_get_store_route g s t = Except.ok (pt, pl) ∧
      app_get_store_route g s t = Except.ok pt ∧
      ValidPath g s t pt ∧ ValidPath g s t pl ∧
      (∀ q ∈ simplePaths g s t, pathCost g weightTime pt ≤ pathCost g weightTime q) ∧
      (∀ q ∈ simplePaths g s t, pathCost g weightLength pl ≤ pathCost g weightLength q) := by
  obtain ⟨pt, hpt⟩ := argminBy_isSome (pathCost g weightTime) _ hne
  obtain ⟨pl, hpl⟩ := argminBy_isSome (pathCost g weightLength) _ hne
  refine ⟨pt, pl, ?_, ?_, ?_, ?_, ?_, ?_⟩
  · unfold dapp_get_store_route shortest_path
    rw [hpt, hpl]
  · unfold app_get_store_route shortest_path
    rw [hpt]
  · exact simplePaths_sound g s t pt (argminBy_mem _ _ pt hpt)
  · exact simplePaths_sound g s t pl (argminBy_mem _ _ pl hpl)
  · exact argminBy_le _ _ pt hpt
  · exact argminBy_le _ _ pl hpl

/-- Witness for C2 on `routeDemoGraph`. -/
theorem c2_both_paths_witness :
    simplePaths routeDemoGraph 0 3 ≠ [] ∧
      ∃ pt pl,
        dapp_get_store_route routeDemoGraph 0 3 = Except.ok (pt, pl) ∧
        app_get_store_route routeDemoGraph 0 3 = Except.ok pt ∧
        ValidPath routeDemoGraph 0 3 pt ∧ ValidPath routeDemoGraph 0 3 pl ∧
        (∀ q ∈ simplePaths routeDemoGraph 0 3,
          pathCost routeDemoGraph weightTime pt ≤ pathCost routeDemoGraph weightTime q) ∧
        (∀ q ∈ simplePaths routeDemoGraph 0 3,
          pathCost routeDemoGraph weightLength pl ≤ pathCost routeDemoGraph weightLength q) :=
  ⟨by decide, c2_both_paths routeDemoGraph 0 3 (by decide)⟩

/-- Counterexample for C2 as stated: on `routeDemoGraph` the app route
operation (src/app.py:323-330) returns only the travel-time path
`[0, 1, 3]`; the length-optimal path `[0, 2, 3]` differs and is never
computed or returned by that endpoint, so the claim that every routing
request runs the computation twice and returns both paths is false of
src/app.py. -/
theorem c2_counterexample :
    app_get_store_route routeDemoGraph 0 3 = Except.ok [0, 1, 3] ∧
      shortest_path routeDemoGraph weightLength 0 3 = some [0, 2, 3] ∧
      ([0, 1, 3] : List ℕ) ≠ [0, 2, 3] :=
  ⟨demo_app, demo_length_path, by decide⟩

/-- C5 (confirmed).  Whenever the dapp route operation succeeds, the
total length of the length-optimal path is at most the total length of
the time-optimal path. -/
theorem c5_length_le (g : RoadGraph) (s t : ℕ) (pt pl : List ℕ)
    (h : dapp_get_store_route g s t = Except.ok (pt, pl)) :
    pathCost g weightLength pl ≤ pathCost g weightLength pt := by
  obtain ⟨h1, h2⟩ := dapp_route_ok h
  unfold shortest_path at h1 h2
  exact argminBy_le _ _ pl h2 pt (argminBy_mem _ _ pt h1)

/-- Witness for C5 on `routeDemoGraph`. -/
theorem c5_length_le_witness :
    dapp_get_store_route routeDemoGraph 0 3 = Except.ok ([0, 1, 3], [0, 2, 3]) ∧
      pathCost routeDemoGraph weightLength [0, 2, 3] ≤
        pathCost routeDemoGraph weightLength [0, 1, 3] :=
  ⟨demo_dapp, c5_length_le routeDemoGraph 0 3 [0, 1, 3] [0, 2, 3] demo_dapp⟩

/-- C7 (confirmed).  When the destination is unreachable from the origin
(no walk joins them), both route endpoints fail with the no-path error
and neither produces any path value. -/
theorem c7_no_path (g : RoadGraph) (s t : ℕ)
    (h : ¬ ∃ p, ValidPath g s t p) :
    app_get_store_route g s t = Except.error RouteError.noPathFound ∧
      dapp_get_store_route g s t = Except.error RouteError.noPathFound := by
  have hsp : simplePaths g s t = [] := by
    cases hl : simplePaths g s t with
    | nil => rfl
    | cons p ps =>
      exact absurd ⟨p, simplePaths_sound g s t p (hl ▸ List.mem_cons_self p ps)⟩ h
  have h1 : shortest_path g weightTime s t = none := by
    unfold shortest_path
    rw [hsp]
    rfl
  have h2 : shortest_path g weightLength s t = none := by
    unfold shortest_path
    rw [hsp]
    rfl
  constructor
  · unfold app_get_store_route
    rw [h1]
  · unfold dapp_get_store_route
    rw [h1, h2]

/-- Witness for C7 on the edgeless graph `noPathGraph`. -/
theorem c7_no_path_witness :
    (¬ ∃ p, ValidPath noPathGraph 0 1 p) ∧
      app_get_store_route noPathGraph 0 1 = Except.error RouteError.noPathFound ∧
      dapp_get_store_route noPathGraph 0 1 = Except.error RouteError.noPathFound := by
  have hne : ¬ ∃ p, ValidPath noPathGraph 0 1 p := by
    rintro ⟨p, hh, hl, hs⟩
    match p with
    | [] => simp at hh
    | [a] =>
      obtain rfl : a = 0 := by simpa using hh
      simp at hl
    | a :: b :: bs =>
      have hne2 : hasEdge noPathGraph a b = false := rfl
      simp [validSteps, hne2] at hs
  have hc := c7_no_path noPathGraph 0 1 hne
  exact ⟨hne, hc.1, hc.2⟩

/-! ### Claim theorems: nearby-store search -/

/-- C4 (corrected: the carried `distance` field is rounded to two
decimals, so it is bounded by the *rounded* radius and can exceed the
radius itself by up to 1/200).  For every origin and radius the search
returns exactly the catalog stores whose (unrounded) distance is ≤ the
radius, sorted non-decreasingly by the carried `distance` field with
ties broken by catalog insertion order (each equal-`distance` class
keeps the catalog order), every carried `distance` is ≤ the radius
rounded to two decimals (hence ≤ radius + 1/200), and a radius miss
yields the empty list, not an error. -/
theorem c4_find_nearby_properties (dist : ℚ × ℚ → ℚ × ℚ → ℚ)
    (stores : List Store) (lat lon radius : ℚ) (hour : ℕ) :
    (find_nearby_stores dist stores lat lon radius hour).Perm
        (nearbyCandidates dist stores lat lon radius hour) ∧
      List.Sorted byDistance (find_nearby_stores dist stores lat lon radius hour) ∧
      (∀ x ∈ find_nearby_stores dist stores lat lon radius hour,
        x.distance ≤ round2 radius ∧ x.distance ≤ radius + 1/200) ∧
      (∀ v : ℚ,
        (find_nearby_stores dist stores lat lon radius hour).filter
            (fun x => x.distance == v) =
          (nearbyCandidates dist stores lat lon radius hour).filter
            (fun x => x.distance == v)) ∧
      ((∀ s ∈ stores, ¬ dist (lat, lon) (s.latitude, s.longitude) ≤ radius) →
        find_nearby_stores dist stores lat lon radius hour = []) := by
  refine ⟨List.perm_insertionSort byDistance _,
    List.sorted_insertionSort byDistance _, ?_, ?_, ?_⟩
  · intro x hx
    unfold find_nearby_stores at hx
    have hx2 : x ∈ nearbyCandidates dist stores lat lon radius hour :=
      (List.perm_insertionSort byDistance _).mem_iff.mp hx
    unfold nearbyCandidates at hx2
    rw [List.mem_map] at hx2
    obtain ⟨s, hs, rfl⟩ := hx2
    rw [List.mem_filter] at hs
    have hd : dist (lat, lon) (s.latitude, s.longitude) ≤ radius := by
      simpa using hs.2
    refine ⟨round2_mono hd, ?_⟩
    exact le_trans (round2_mono hd) (round2_le radius)
  · intro v
    unfold find_nearby_stores
    exact filter_insertionSort_byDistance v _
  · intro hnone
    unfold find_nearby_stores nearbyCandidates
    have hfil : (stores.filter fun s =>
        decide (dist (lat, lon) (s.latitude, s.longitude) ≤ radius)) = [] := by
      rw [List.filter_eq_nil_iff]
      intro s hs
      simpa using hnone s hs
    rw [hfil]
    rfl

/-- Witness for C4 on a one-store catalog with constant distance 1 and
radius 5. -/
theorem c4_find_nearby_properties_witness :
    List.Sorted byDistance (find_nearby_stores (fun _ _ => 1) [demoStore] 0 0 5 12) ∧
      ∀ x ∈ find_nearby_stores (fun _ _ => 1) [demoStore] 0 0 5 12,
        x.distance ≤ round2 5 ∧ x.distance ≤ 5 + 1/200 :=
  ⟨(c4_find_nearby_properties (fun _ _ => 1) [demoStore] 0 0 5 12).2.1,
   (c4_find_nearby_properties (fun _ _ => 1) [demoStore] 0 0 5 12).2.2.1⟩

/-- Counterexample for C4 as stated: a store at (true) distance 4.998 km
with radius 4.999 km passes the filter, but the result carries
`distanceKm = round(4.998, 2) = 5.0 > 4.999`, so "every returned
`distanceKm ≤ radiusKm`" is false of the code. -/
theorem c4_counterexample :
    ((find_nearby_stores (fun _ _ => 2499/500) [demoStore] 0 0 (4999/1000) 12).map
        fun x => x.distance) = [5] ∧
      ¬ ((5 : ℚ) ≤ 4999/1000) := by
  constructor
  · norm_num [find_nearby_stores, nearbyCandidates, mkNearby, round2, pyRound,
      List.insertionSort, List.orderedInsert, byDistance, demoStore, List.filter]
  · norm_num

/-! ### Great-circle distance lemmas -/

theorem dot3_symm (u v : ℝ × ℝ × ℝ) : dot3 u v = dot3 v u := by
  unfold dot3
  ring

theorem dot3_self_unitVec (p : ℚ × ℚ) : dot3 (unitVec p) (unitVec p) = 1 := by
  unfold dot3 unitVec
  dsimp only
  have h1 := Real.sin_sq_add_cos_sq (degToRad p.1)
  have h2 := Real.sin_sq_add_cos_sq (degToRad p.2)
  nlinarith [h1, h2]

theorem greatCircleKm_symm (p q : ℚ × ℚ) : greatCircleKm p q = greatCircleKm q p := by
  unfold greatCircleKm
  rw [dot3_symm]

theorem greatCircleKm_self (p : ℚ × ℚ) : greatCircleKm p p = 0 := by
  unfold greatCircleKm
  rw [dot3_self_unitVec, Real.arccos_one, mul_zero]

theorem greatCircleKm_nonneg (p q : ℚ × ℚ) : 0 ≤ greatCircleKm p q := by
  unfold greatCircleKm
  exact mul_nonneg (by norm_num) (Real.arccos_nonneg _)

theorem degToRad_ninety : degToRad (90 : ℚ) = Real.pi / 2 := by
  unfold degToRad
  push_cast
  ring

/-! ### Claim theorems: distance calculator -/

/-- C8 (corrected: "zero iff a == b" fails, see the counterexample; the
remaining properties hold).  For all valid GeoPoints the distance is
non-negative, symmetric, and zero on identical points. -/
theorem c8_distance_properties (p q : ℚ × ℚ)
    (hp : ValidGeoPoint p) (hq : ValidGeoPoint q) :
    (∀ v : ℝ, calculate_distance p q = Except.ok v → 0 ≤ v) ∧
      calculate_distance p q = calculate_distance q p ∧
      calculate_distance p p = Except.ok 0 := by
  obtain ⟨hp1, hp2, _, _⟩ := hp
  obtain ⟨hq1, hq2, _, _⟩ := hq
  unfold calculate_distance geodesic_kilometers
  rw [if_pos ⟨hp1, hp2, hq1, hq2⟩, if_pos ⟨hq1, hq2, hp1, hp2⟩,
    if_pos ⟨hp1, hp2, hp1, hp2⟩]
  refine ⟨?_, ?_, ?_⟩
  · intro v hv
    obtain rfl : greatCircleKm (p.1, normalizeLon p.2) (q.1, normalizeLon q.2) = v := by
      simpa using hv
    exact greatCircleKm_nonneg _ _
  · rw [greatCircleKm_symm]
  · rw [greatCircleKm_self]

/-- Witness for C8 at the valid points (0, 0) and (10, 20). -/
theorem c8_distance_properties_witness :
    ValidGeoPoint (0, 0) ∧ ValidGeoPoint (10, 20) ∧
      (∀ v : ℝ, calculate_distance (0, 0) (10, 20) = Except.ok v → 0 ≤ v) ∧
      calculate_distance (0, 0) (10, 20) = calculate_distance (10, 20) (0, 0) ∧
      calculate_distance (0, 0) (0, 0) = Except.ok 0 := by
  have h := c8_distance_properties (0, 0) (10, 20)
    (by norm_num [ValidGeoPoint]) (by norm_num [ValidGeoPoint])
  exact ⟨by norm_num [ValidGeoPoint], by norm_num [ValidGeoPoint], h.1, h.2.1, h.2.2⟩

/-- Counterexample for C8 as stated: (90, 0) and (90, 1) are distinct
valid GeoPoints both denoting the north pole, and their distance is 0 —
so `distance(a,b) == 0` does not imply `a == b`.  (The real geopy
geodesic agrees: the distance between these two inputs is 0.0.) -/
theorem c8_counterexample :
    calculate_distance (90, 0) (90, 1) = Except.ok 0 ∧
      ((90 : ℚ), (0 : ℚ)) ≠ ((90 : ℚ), (1 : ℚ)) ∧
      ValidGeoPoint (90, 0) ∧ ValidGeoPoint (90, 1) := by
  refine ⟨?_, by norm_num [Prod.ext_iff], by norm_num [ValidGeoPoint],
    by norm_num [ValidGeoPoint]⟩
  unfold calculate_distance geodesic_kilometers
  rw [if_pos (by norm_num)]
  have hdot : dot3 (unitVec ((90 : ℚ), normalizeLon 0))
      (unitVec ((90 : ℚ), normalizeLon 1)) = 1 := by
    unfold dot3 unitVec
    dsimp only
    rw [degToRad_ninety, Real.cos_pi_div_two, Real.sin_pi_div_two]
    ring
  rw [show greatCircleKm ((90 : ℚ), normalizeLon 0) ((90 : ℚ), normalizeLon 1) = 0 from by
    unfold greatCircleKm
    rw [hdot, Real.arccos_one, mul_zero]]

/-- C6 (corrected: only out-of-range latitudes make the computation
fail, with a generic library error, not a structured InvalidCoordinate;
the repository code itself performs no validation at all).  The distance
operation never fails for valid GeoPoints, and the underlying library
rejects any input pair in which some latitude is outside [-90, 90]. -/
theorem c6_validation_behavior (p q : ℚ × ℚ)
    (hp : ValidGeoPoint p) (hq : ValidGeoPoint q) :
    isOkE (calculate_distance p q) = true ∧
      ∀ a b : ℚ × ℚ, ¬ (-90 ≤ a.1 ∧ a.1 ≤ 90 ∧ -90 ≤ b.1 ∧ b.1 ≤ 90) →
        calculate_distance a b = Except.error "ValueError" := by
  constructor
  · obtain ⟨hp1, hp2, _, _⟩ := hp
    obtain ⟨hq1, hq2, _, _⟩ := hq
    unfold calculate_distance geodesic_kilometers
    rw [if_pos ⟨hp1, hp2, hq1, hq2⟩]
    rfl
  · intro a b hab
    unfold calculate_distance geodesic_kilometers
    rw [if_neg hab]

/-- Witness for C6: valid inputs succeed; latitude 100 fails. -/
theorem c6_validation_behavior_witness :
    ValidGeoPoint (0, 0) ∧ ValidGeoPoint (10, 20) ∧
      isOkE (calculate_distance (0, 0) (10, 20)) = true ∧
      calculate_distance (100, 0) (0, 0) = Except.error "ValueError" := by
  have h := c6_validation_behavior (0, 0) (10, 20)
    (by norm_num [ValidGeoPoint]) (by norm_num [ValidGeoPoint])
  exact ⟨by norm_num [ValidGeoPoint], by norm_num [ValidGeoPoint], h.1,
    h.2 (100, 0) (0, 0) (by norm_num)⟩

/-- Counterexample for C6 as stated: the point (0, 200) violates the
GeoPoint longitude invariant, yet the distance computation succeeds (the
library silently normalizes the longitude), so "fails whenever either
input point is outside that range" is false. -/
theorem c6_counterexample :
    ¬ ValidGeoPoint ((0 : ℚ), (200 : ℚ)) ∧
      isOkE (calculate_distance (0, 200) (0, 0)) = true := by
  constructor
  · norm_num [ValidGeoPoint]
  · unfold calculate_distance geodesic_kilometers
    rw [if_pos (by norm_num)]
    rfl

end Maps
